import Mathlib

/-
Verification development for the localstack response utilities
(localstack/utils/aws/aws_responses.py) and for the CloudFormation-style
template deployment engine exercised by tests/integration/test_cloudformation.py.

The Python code is shallowly embedded: Python values are an inductive type,
bytes/str bodies are Lean strings, flask/werkzeug responses and requests
responses are structures, and the deployment engine (whose implementation is
not part of the two source files) is modelled from the specification text.
-/

namespace LocalStackProof

/-- Python values as they appear in the response utilities: strings, integers,
booleans, None, lists, and string-keyed dictionaries kept in insertion order,
as Python dicts preserve insertion order. -/
inductive PyVal where
  | str (s : String)
  | int (n : Int)
  | bool (b : Bool)
  | null
  | list (xs : List PyVal)
  | dict (entries : List (String × PyVal))

/-- Python isinstance of dict. -/
def PyVal.isDict : PyVal → Bool
  | .dict _ => true
  | _ => false

/-- Lower-case hexadecimal digit, as produced by Python json escaping. -/
def hexDigit (n : Nat) : Char :=
  if n < 10 then Char.ofNat (48 + n) else Char.ofNat (87 + n)

/-- Four lower-case hex digits of a code unit, for backslash-u escapes. -/
def u4 (n : Nat) : String :=
  String.mk [hexDigit (n / 4096 % 16), hexDigit (n / 256 % 16),
             hexDigit (n / 16 % 16), hexDigit (n % 16)]

/-- Escaping of one character inside a JSON string literal, following Python
json.dumps with its default ensure_ascii=True: the two-character escapes for
quote, backslash and common control characters, backslash-u escapes for the
remaining control characters and all non-ASCII characters, surrogate pairs
beyond the basic plane. -/
def jsonEscapeChar (c : Char) : String :=
  if c = Char.ofNat 34 then "\\\""
  else if c = Char.ofNat 92 then "\\\\"
  else if c = Char.ofNat 10 then "\\n"
  else if c = Char.ofNat 9 then "\\t"
  else if c = Char.ofNat 13 then "\\r"
  else if c = Char.ofNat 8 then "\\b"
  else if c = Char.ofNat 12 then "\\f"
  else if c.toNat < 32 || 126 < c.toNat then
    if c.toNat < 65536 then "\\u" ++ u4 c.toNat
    else "\\u" ++ u4 (55296 + (c.toNat - 65536) / 1024) ++
         "\\u" ++ u4 (56320 + (c.toNat - 65536) % 1024)
  else String.singleton c

/-- A JSON string literal for s, double-quoted and escaped. -/
def jsonQuote (s : String) : String :=
  "\"" ++ String.join (s.toList.map jsonEscapeChar) ++ "\""

mutual

/-- Model of Python json.dumps with its default separators, as called by
aws_responses.py on response dictionaries. -/
def json_dumps : PyVal → String
  | .str s => jsonQuote s
  | .int n => toString n
  | .bool b => if b then "true" else "false"
  | .null => "null"
  | .list xs => "[" ++ json_dumps_list xs ++ "]"
  | .dict es => "\x7b" ++ json_dumps_entries es ++ "\x7d"

/-- Comma-separated serialization of a JSON array's elements. -/
def json_dumps_list : List PyVal → String
  | [] => ""
  | [x] => json_dumps x
  | x :: y :: xs => json_dumps x ++ ", " ++ json_dumps_list (y :: xs)

/-- Comma-separated serialization of a JSON object's key/value pairs. -/
def json_dumps_entries : List (String × PyVal) → String
  | [] => ""
  | [(k, v)] => jsonQuote k ++ ": " ++ json_dumps v
  | (k, v) :: e :: es =>
    jsonQuote k ++ ": " ++ json_dumps v ++ ", " ++ json_dumps_entries (e :: es)

end

/-- ASCII lower-casing of one character; header names are ASCII. -/
def lowerChar (c : Char) : Char :=
  if 65 ≤ c.toNat && c.toNat ≤ 90 then Char.ofNat (c.toNat + 32) else c

/-- Case-insensitive header-key normalization, as werkzeug Headers lower-cases
header names before comparing them. -/
def ciKey (s : String) : String := String.mk (s.toList.map lowerChar)

/-- Membership test of a header name, case-insensitive, as in werkzeug. -/
def headers_contains (hs : List (String × String)) (k : String) : Bool :=
  hs.any (fun p => ciKey p.1 == ciKey k)

/-- werkzeug Headers.set: replace the first entry whose name matches
case-insensitively (storing the new name spelling), drop any later entries
with the same name, append when the name is absent. -/
def headers_set : List (String × String) → String → String → List (String × String)
  | [], k, v => [(k, v)]
  | p :: rest, k, v =>
    if ciKey p.1 == ciKey k then
      (k, v) :: rest.filter (fun q => !(ciKey q.1 == ciKey k))
    else p :: headers_set rest k v

/-- werkzeug Headers.get: value of the first entry whose name matches
case-insensitively. -/
def headers_get (hs : List (String × String)) (k : String) : Option String :=
  (hs.find? (fun p => ciKey p.1 == ciKey k)).map Prod.snd

/-- A flask (werkzeug) Response restricted to what aws_responses.py uses: a
string-or-bytes body (bytes modelled as a Lean string), an integer status
code, and the header list. werkzeug Headers keeps an ordered list of
name/value pairs and allows repeated names. -/
structure FlaskResponse where
  data : String
  status_code : Nat
  headers : List (String × String)
deriving DecidableEq

/-- Headers produced by the werkzeug Response constructor: the given headers,
then the default Content-Type of text/html when no content type is present,
then Content-Length set by set_data from the body length. -/
def mkResponseHeaders (body : String) (headers : List (String × String)) :
    List (String × String) :=
  headers_set
    (if headers_contains headers "content-type" then headers
     else headers ++ [("Content-Type", "text/html; charset=utf-8")])
    "Content-Length" (toString body.length)

/-- The werkzeug Response constructor on a string-or-bytes body, an integer
status and a header collection, as invoked by aws_responses.py. -/
def mkResponse (body : String) (status : Nat) (headers : List (String × String)) :
    FlaskResponse :=
  { data := body, status_code := status, headers := mkResponseHeaders body headers }

/-- The result dictionary built inside flask_error_response: Type is User for
status codes below 500 and Server otherwise, message and __type are the
arguments. -/
def flask_error_result (msg : String) (code : Nat) (error_type : String) :
    List (String × PyVal) :=
  [("Type", .str (if code < 500 then "User" else "Server")),
   ("message", .str msg),
   ("__type", .str error_type)]

/-- flask_error_response from aws_responses.py: a flask Response whose body is
json.dumps of the result dictionary, whose status is the given code, and
whose headers carry x-amzn-errortype set to the error type. -/
def flask_error_response (msg : String) (code : Nat) (error_type : String) :
    FlaskResponse :=
  mkResponse (json_dumps (.dict (flask_error_result msg code error_type))) code
    [("x-amzn-errortype", error_type)]

/-- flask_error_response at its Python default arguments: code 500 and
error_type InternalFailure. -/
def flask_error_response_default (msg : String) : FlaskResponse :=
  flask_error_response msg 500 "InternalFailure"

/-- A requests.models.Response restricted to what aws_responses.py touches:
the private content slot, the status code, and the headers object assigned
verbatim. -/
structure RequestsResponse where
  content : PyVal
  status_code : Nat
  headers : List (String × String)

/-- requests_response from aws_responses.py: dict content is JSON-serialized,
any other content is stored unchanged; status code and headers are stored as
given. -/
def requests_response (content : PyVal) (status_code : Nat)
    (headers : List (String × String)) : RequestsResponse :=
  { content :=
      match content with
      | .dict es => PyVal.str (json_dumps (.dict es))
      | c => c,
    status_code := status_code, headers := headers }

/-- requests_response at its Python default arguments: status code 200 and
empty headers. -/
def requests_response_default (content : PyVal) : RequestsResponse :=
  requests_response content 200 []

/-- flask_to_requests_response from aws_responses.py: feeds the flask body
bytes, status code and headers object into requests_response. -/
def flask_to_requests_response (r : FlaskResponse) : RequestsResponse :=
  requests_response (.str r.data) r.status_code r.headers

/-- One Python dict item assignment: an already-present key (compared
case-sensitively, as dict keys are) keeps its first position and takes the
new value, a fresh key is appended. -/
def dictInsert (acc : List (String × String)) (k v : String) :
    List (String × String) :=
  if acc.any (fun p => p.1 == k) then
    acc.map (fun p => if p.1 == k then (k, v) else p)
  else acc ++ [(k, v)]

/-- Python dict applied to a werkzeug Headers object. Headers offers keys(),
so dict takes the mapping-protocol path: it iterates keys() — every stored
name spelling, duplicates included — and fetches each value with the Headers
item lookup, which returns the value of the FIRST entry whose name matches
case-insensitively; each fetched pair is stored by dict item assignment. A
repeated header name therefore collapses to a single entry holding the first
value. -/
def pyDictOfHeaders (l : List (String × String)) : List (String × String) :=
  l.foldl (fun acc p => dictInsert acc p.1 ((headers_get l p.1).getD p.2)) []

/-- requests_to_flask_response from aws_responses.py: a flask Response built
from the requests content, status code, and dict of the headers; the werkzeug
constructor accepts only a string-or-bytes body. -/
def requests_to_flask_response (r : RequestsResponse) : Option FlaskResponse :=
  match r.content with
  | .str s => some (mkResponse s r.status_code (pyDictOfHeaders r.headers))
  | _ => none

/-- Per-resource lifecycle status, from the specification's state machine:
PENDING, IN_PROGRESS, then the COMPLETE/FAILED terminal variants of the
CREATE/UPDATE/DELETE/ROLLBACK operation families. -/
inductive ResStatus where
  | pending
  | in_progress
  | create_complete
  | create_failed
  | update_complete
  | update_failed
  | delete_complete
  | delete_failed
  | rollback_complete
  | rollback_failed
deriving DecidableEq

/-- A status of the COMPLETE family (terminal success). -/
def is_complete : ResStatus → Bool
  | .create_complete | .update_complete | .delete_complete | .rollback_complete => true
  | _ => false

/-- A status of the FAILED family. -/
def is_failed : ResStatus → Bool
  | .create_failed | .update_failed | .delete_failed | .rollback_failed => true
  | _ => false

/-- A terminal status: COMPLETE or FAILED. -/
def is_terminal (s : ResStatus) : Bool :=
  is_complete s || is_failed s

/-- Stack-level status as observed by the polling tests. -/
inductive StackStatus where
  | create_complete
  | create_failed
  | in_progress
deriving DecidableEq

/-- Modelled from the spec: the Stack Lifecycle Manager derives the stack
status from the resource statuses — CREATE_COMPLETE when every resource
reached a COMPLETE state, CREATE_FAILED when some resource sits in a FAILED
state (a resource compensated by a successful rollback carries
ROLLBACK_COMPLETE, which is of the COMPLETE family, so it no longer counts as
failed), IN_PROGRESS otherwise. -/
def derive_stack_status (rs : List ResStatus) : StackStatus :=
  if rs.all is_complete then .create_complete
  else if rs.any is_failed then .create_failed
  else .in_progress

/-- Intrinsic template expressions, from the specification's Expression
Resolver: literal passthrough, Ref to a logical resource, GetAtt-style
attribute reference, string join, plus structured list and mapping property
values whose children may in turn be expressions. -/
inductive Expr where
  | lit (s : String)
  | ref (name : String)
  | getAtt (name attr : String)
  | join (sep : String) (parts : List Expr)
  | arr (elems : List Expr)
  | dict (entries : List (String × Expr))

/-- A resolved template property value: a string, a list, or a mapping. -/
inductive TVal where
  | s (v : String)
  | arr (elems : List TVal)
  | dict (entries : List (String × TVal))

/-- First value bound to a key in an association list. -/
def assoc {β : Type} : List (String × β) → String → Option β
  | [], _ => none
  | p :: rest, k => if p.1 = k then some p.2 else assoc rest k

mutual

/-- Logical names referenced by an expression, from Ref and GetAtt nodes,
gathered by the dry scan the Dependency Graph Builder performs. -/
def expr_refs : Expr → List String
  | .lit _ => []
  | .ref n => [n]
  | .getAtt n _ => [n]
  | .join _ ps => exprs_refs ps
  | .arr es => exprs_refs es
  | .dict es => entries_refs es

/-- References gathered over a list of expressions. -/
def exprs_refs : List Expr → List String
  | [] => []
  | e :: es => expr_refs e ++ exprs_refs es

/-- References gathered over the values of a property mapping. -/
def entries_refs : List (String × Expr) → List String
  | [] => []
  | (_, e) :: es => expr_refs e ++ entries_refs es

end

/-- One declared resource: its service type string, its raw property mapping
(values may hold unresolved intrinsics), and its author-declared explicit
dependency list. -/
structure ResourceSpec where
  rtype : String
  props : List (String × Expr)
  dependsOn : List String

/-- A parsed template: parameter specs and the ordered mapping of logical
resource names to resource specifications. -/
structure Template where
  parameters : List (String × String)
  resources : List (String × ResourceSpec)

/-- A ResourceSpec after resolution: resolved properties, the physical
identifier assigned on successful creation, the derived attributes exposed to
GetAtt, and the lifecycle status. -/
structure ResolvedResource where
  rtype : String
  resolved_props : List (String × TVal)
  phys_id : Option String
  attributes : List (String × String)
  status : ResStatus

/-- An immutable event appended as a resource transitions. -/
structure StackEvent where
  logical_id : String
  resource_type : String
  status : ResStatus
  reason : Option String

/-- One deployment instance: its name, its owned logical-name-keyed resource
map, and its ordered event sequence. -/
structure Stack where
  name : String
  resources : List (String × ResolvedResource)
  events : List StackEvent

/-- The process-wide map of live stacks, keyed by stack name. -/
def StacksState : Type := List (String × Stack)

mutual

/-- Modelled from the spec: the Expression Resolver. Literals pass through;
Ref yields the physical identifier of a resource that has reached terminal
success and fails (None) otherwise or on a dangling name; GetAtt yields a
derived attribute under the same precondition; join concatenates resolved
string parts; structured values resolve their children post-order. -/
def resolve (ctx : List (String × ResolvedResource)) : Expr → Option TVal
  | .lit s => some (TVal.s s)
  | .ref n =>
    match assoc ctx n with
    | some r => if is_complete r.status then r.phys_id.map TVal.s else none
    | none => none
  | .getAtt n a =>
    match assoc ctx n with
    | some r => if is_complete r.status then (assoc r.attributes a).map TVal.s else none
    | none => none
  | .join sep ps =>
    match resolve_list ctx ps with
    | some vs =>
      if vs.all (fun v => match v with | TVal.s _ => true | _ => false) then
        some (TVal.s (String.intercalate sep
          (vs.map (fun v => match v with | TVal.s x => x | _ => ""))))
      else none
    | none => none
  | .arr es => (resolve_list ctx es).map TVal.arr
  | .dict es => (resolve_entries ctx es).map TVal.dict

/-- Resolution over a list of expressions, failing when any child fails. -/
def resolve_list (ctx : List (String × ResolvedResource)) :
    List Expr → Option (List TVal)
  | [] => some []
  | e :: es =>
    match resolve ctx e, resolve_list ctx es with
    | some v, some vs => some (v :: vs)
    | _, _ => none

/-- Resolution over a property mapping, failing when any value fails. -/
def resolve_entries (ctx : List (String × ResolvedResource)) :
    List (String × Expr) → Option (List (String × TVal))
  | [] => some []
  | (k, e) :: es =>
    match resolve ctx e, resolve_entries ctx es with
    | some v, some vs => some ((k, v) :: vs)
    | _, _ => none

end

/-- String value of a resolved property, with a fallback default. -/
def str_prop (props : List (String × TVal)) (k dflt : String) : String :=
  match assoc props k with
  | some (TVal.s v) => v
  | _ => dflt

/-- Modelled from the spec: the Resource Provisioner's type-keyed dispatch to
the backing service clients, which return a physical identifier and derived
attributes. Queues expose their URL as physical identifier and their ARN as
an attribute, buckets their name, topics their ARN; an unknown resource type
is an UnsupportedResourceTypeError, modelled as None. -/
def provision_create (rtype logical : String) (props : List (String × TVal)) :
    Option (String × List (String × String)) :=
  if rtype = "AWS::SQS::Queue" then
    let nm := str_prop props "QueueName" logical
    some ("http://localhost:4576/queue/" ++ nm,
          [("Arn", "arn:aws:sqs:us-east-1:000000000000:" ++ nm), ("QueueName", nm)])
  else if rtype = "AWS::S3::Bucket" then
    let nm := str_prop props "BucketName" logical
    some (nm, [("Arn", "arn:aws:s3:::" ++ nm)])
  else if rtype = "AWS::SNS::Topic" then
    let nm := str_prop props "TopicName" logical
    some ("arn:aws:sns:us-east-1:000000000000:" ++ nm, [("TopicName", nm)])
  else if rtype = "AWS::SNS::Subscription" then
    some (str_prop props "TopicArn" "" ++ ":" ++ str_prop props "Endpoint" "", [])
  else none

/-- Dependencies of a resource: the explicit dependsOn list united with every
logical name found by the reference scan of its property tree. -/
def resource_deps (r : ResourceSpec) : List String :=
  r.dependsOn ++ entries_refs r.props

/-- Replace the resource bound to a logical name in a stack's resource map. -/
def set_resource (rs : List (String × ResolvedResource)) (ln : String)
    (r : ResolvedResource) : List (String × ResolvedResource) :=
  rs.map (fun p => if p.1 == ln then (ln, r) else p)

/-- First resource, in template declaration order, that is still PENDING and
whose dependencies have all reached terminal success. -/
def find_ready (tmpl_res : List (String × ResourceSpec)) (stack : Stack) :
    Option (String × ResourceSpec) :=
  tmpl_res.find? (fun p =>
    (match assoc stack.resources p.1 with
     | some r => r.status == ResStatus.pending
     | none => false) &&
    (resource_deps p.2).all (fun d =>
      match assoc stack.resources d with
      | some r => is_complete r.status
      | none => false))

/-- Modelled from the spec: one step of the apply walk. Pick the first ready
PENDING resource, resolve its properties against the resources completed so
far, invoke the Provisioner, and record the outcome — CREATE_COMPLETE with
physical identifier and attributes on success, CREATE_FAILED on a resolution
or provisioning failure — appending the IN_PROGRESS and terminal events.
Returns None when no resource can make progress. -/
def apply_step (tmpl : Template) (stack : Stack) : Option Stack :=
  match find_ready tmpl.resources stack with
  | none => none
  | some (ln, spec) =>
    let outcome : ResolvedResource :=
      match resolve_entries stack.resources spec.props with
      | some rp =>
        match provision_create spec.rtype ln rp with
        | some (pid, attrs) =>
          { rtype := spec.rtype, resolved_props := rp, phys_id := some pid,
            attributes := attrs, status := ResStatus.create_complete }
        | none =>
          { rtype := spec.rtype, resolved_props := rp, phys_id := none,
            attributes := [], status := ResStatus.create_failed }
      | none =>
        { rtype := spec.rtype, resolved_props := [], phys_id := none,
          attributes := [], status := ResStatus.create_failed }
    some { stack with
           resources := set_resource stack.resources ln outcome,
           events := stack.events ++
             [{ logical_id := ln, resource_type := spec.rtype,
                status := ResStatus.in_progress, reason := none },
              { logical_id := ln, resource_type := spec.rtype,
                status := outcome.status, reason := none }] }

/-- A fresh stack for a template: every declared resource PENDING. -/
def init_stack (nm : String) (tmpl : Template) : Stack :=
  { name := nm,
    resources := tmpl.resources.map (fun p =>
      (p.1, { rtype := p.2.rtype, resolved_props := [], phys_id := none,
              attributes := [], status := ResStatus.pending })),
    events := [] }

/-- Iterate apply steps, at most the given number of times, stopping when no
resource can make progress. -/
def run_apply : Nat → Template → Stack → Stack
  | 0, _, st => st
  | n + 1, tmpl, st =>
    match apply_step tmpl st with
    | some st2 => run_apply n tmpl st2
    | none => st

/-- Modelled from the spec: a full CreateStack apply for a parsed template —
initialize every resource to PENDING, then walk the dependency order until no
resource remains eligible (one step suffices per resource). -/
def create_stack_apply (nm : String) (tmpl : Template) : Stack :=
  run_apply tmpl.resources.length tmpl (init_stack nm tmpl)

/-- Derived overall status of a stack, from its resources' statuses. -/
def stack_status (s : Stack) : StackStatus :=
  derive_stack_status (s.resources.map (fun p => p.2.status))

/-- DescribeStackResources: logical identifier, physical identifier (empty
when unassigned) and status of every resource of the stack. -/
def describe_stack_resources (s : Stack) : List (String × String × ResStatus) :=
  s.resources.map (fun p => (p.1, (p.2.phys_id.getD "", p.2.status)))

/-- A logical name is declared when it names a resource or a parameter. -/
def declared (t : Template) (n : String) : Bool :=
  t.resources.any (fun p => p.1 == n) || t.parameters.any (fun p => p.1 == n)

/-- Every dependency of every resource is a declared name; a violation is the
DanglingReferenceError caught at graph-build time. -/
def no_dangling (t : Template) : Bool :=
  t.resources.all (fun p => (resource_deps p.2).all (declared t))

/-- Repeated selection for the topological order: pick the first remaining
resource none of whose dependencies is still among the remaining resources;
when no pick exists while resources remain, the graph has a cycle. -/
def topo_select : Nat → List (String × ResourceSpec) → List String → Option (List String)
  | 0, remaining, acc => if remaining.isEmpty then some acc.reverse else none
  | n + 1, remaining, acc =>
    if remaining.isEmpty then some acc.reverse
    else
      match remaining.find? (fun p =>
        (resource_deps p.2).all (fun d => !(remaining.any (fun q => q.1 == d)))) with
      | some p =>
        topo_select n (remaining.filter (fun q => !(q.1 == p.1))) (p.1 :: acc)
      | none => none

/-- The Dependency Graph Builder's validation: no dangling reference and an
acyclic graph (a complete topological order exists). -/
def build_graph_ok (t : Template) : Bool :=
  no_dangling t && (topo_select t.resources.length t.resources []).isSome

/-- Modelled from the spec: ValidateTemplate. The template body is parsed by
the given parser; an unparsable body surfaces as a User-class validation
error built by flask_error_response with message Template Validation Error
and status 400; a parsed template runs the graph-build checks and otherwise
answers with the template's parameters and capabilities. The stack store is
returned untouched: validation provisions nothing. -/
def validate_template_response (parse : String → Option Template)
    (body : String) : FlaskResponse :=
  match parse body with
  | none => flask_error_response "Template Validation Error" 400 "ValidationError"
  | some t =>
    if build_graph_ok t then
      mkResponse (json_dumps (.dict
        [("Parameters", .list (t.parameters.map (fun p =>
            PyVal.dict [("ParameterKey", PyVal.str p.1)]))),
         ("Capabilities", .list [])])) 200 []
    else
      flask_error_response "Template Validation Error" 400 "ValidationError"

/-- ValidateTemplate as a command over the stack store: it computes its
response and leaves the store untouched. -/
def validate_template (parse : String → Option Template) (body : String)
    (st : StacksState) : FlaskResponse × StacksState :=
  (validate_template_response parse body, st)

/-- The concrete scenario template: queue Q, bucket B whose tag references
Q's URL, topic T, and the subscription binding T to Q. -/
def scenario_template : Template :=
  { parameters := [],
    resources :=
      [("Q", { rtype := "AWS::SQS::Queue",
               props := [("QueueName", Expr.lit "cf-test-queue-1")],
               dependsOn := [] }),
       ("B", { rtype := "AWS::S3::Bucket",
               props := [("BucketName", Expr.lit "cf-test-bucket-1"),
                         ("Tags", Expr.arr [Expr.dict
                            [("Key", Expr.lit "foobar"),
                             ("Value", Expr.ref "Q")]])],
               dependsOn := [] }),
       ("T", { rtype := "AWS::SNS::Topic",
               props := [("TopicName", Expr.lit "cf-test-topic-1-1")],
               dependsOn := [] }),
       ("Sub", { rtype := "AWS::SNS::Subscription",
                 props := [("TopicArn", Expr.ref "T"),
                           ("Protocol", Expr.lit "sqs"),
                           ("Endpoint", Expr.getAtt "Q" "Arn")],
                 dependsOn := [] })] }

/-- The stack obtained by applying the scenario template. -/
def scenario_stack : Stack :=
  create_stack_apply "test-cf-stack-1" scenario_template

/-! Theorems about the embedded code. -/

/-- Claim C1, counterexample: flask_error_response called with the redirect
status 302 — a status outside the 4xx range — still sets the body field Type
to User, not Server, because the code tests code below 500, not membership in
the 4xx class. -/
theorem flask_error_response_type_counterexample :
    assoc (flask_error_result "m" 302 "ErrorX") "Type" = some (PyVal.str "User") ∧
    assoc (flask_error_result "m" 302 "ErrorX") "Type" ≠ some (PyVal.str "Server") ∧
    302 < 400 :=
  ⟨rfl,
   fun h => by
     injection h with h1
     injection h1 with h2
     exact absurd h2 (by decide),
   by decide⟩

/-- Claim C1, amended: for every error response built by flask_error_response,
the body field Type is User exactly when the status code is strictly below
500 (which covers every 4xx client error) and Server exactly when the status
code is 500 or above. -/
theorem flask_error_response_type_amended (msg : String) (code : Nat) (et : String) :
    (assoc (flask_error_result msg code et) "Type" = some (PyVal.str "User") ↔
      code < 500) ∧
    (assoc (flask_error_result msg code et) "Type" = some (PyVal.str "Server") ↔
      500 ≤ code) := by
  have hus : ("User" : String) ≠ "Server" := by decide
  have hT : assoc (flask_error_result msg code et) "Type" =
      some (PyVal.str (if code < 500 then "User" else "Server")) := rfl
  rw [hT]
  by_cases h : code < 500
  · rw [if_pos h]
    refine ⟨⟨fun _ => h, fun _ => rfl⟩,
            ⟨fun hc => ?_, fun hc => absurd h (Nat.not_lt.mpr hc)⟩⟩
    injection hc with h1
    injection h1 with h2
    exact absurd h2 hus
  · rw [if_neg h]
    refine ⟨⟨fun hc => ?_, fun hc => absurd hc h⟩,
            ⟨fun _ => Nat.not_lt.mp h, fun _ => rfl⟩⟩
    injection hc with h1
    injection h1 with h2
    exact absurd h2.symm hus

/-- Claim C2: for every message, status code and error type,
flask_error_response builds a response whose body is the JSON serialization
of a dictionary holding exactly the fields Type, message and __type, with
message and __type equal to the given arguments, and whose HTTP status equals
the given code. -/
theorem flask_error_response_envelope (msg : String) (code : Nat) (et : String) :
    (flask_error_response msg code et).data =
      json_dumps (PyVal.dict (flask_error_result msg code et)) ∧
    (flask_error_result msg code et).map Prod.fst = ["Type", "message", "__type"] ∧
    assoc (flask_error_result msg code et) "message" = some (PyVal.str msg) ∧
    assoc (flask_error_result msg code et) "__type" = some (PyVal.str et) ∧
    (flask_error_response msg code et).status_code = code :=
  ⟨rfl, rfl, rfl, rfl, rfl⟩

/-- Claim C3: every response built by flask_error_response carries an
x-amzn-errortype header whose value equals the body's __type field, both
being the error_type argument. -/
theorem flask_error_response_errortype_header (msg : String) (code : Nat) (et : String) :
    headers_get (flask_error_response msg code et).headers "x-amzn-errortype" = some et ∧
    assoc (flask_error_result msg code et) "__type" = some (PyVal.str et) :=
  ⟨rfl, rfl⟩

/-- Claim C10: flask_error_response called with only a message uses its
default arguments — HTTP status 500, body Type Server, body __type and the
x-amzn-errortype header both InternalFailure. -/
theorem flask_error_response_defaults (msg : String) :
    (flask_error_response_default msg).status_code = 500 ∧
    assoc (flask_error_result msg 500 "InternalFailure") "Type" =
      some (PyVal.str "Server") ∧
    (flask_error_response_default msg).data =
      json_dumps (PyVal.dict (flask_error_result msg 500 "InternalFailure")) ∧
    assoc (flask_error_result msg 500 "InternalFailure") "__type" =
      some (PyVal.str "InternalFailure") ∧
    headers_get (flask_error_response_default msg).headers "x-amzn-errortype" =
      some "InternalFailure" :=
  ⟨rfl, rfl, rfl, rfl, rfl⟩

/-- Claim C8: requests_response stores the JSON serialization of dict
content, stores any other content unchanged, and defaults the status code to
200 when none is given. -/
theorem requests_response_content (content : PyVal) :
    (∀ es, content = PyVal.dict es →
      (requests_response_default content).content =
        PyVal.str (json_dumps (PyVal.dict es))) ∧
    (content.isDict = false → (requests_response_default content).content = content) ∧
    (requests_response_default content).status_code = 200 := by
  refine ⟨?_, ?_, rfl⟩
  · intro es h
    subst h
    rfl
  · intro h
    cases content <;> first
      | rfl
      | simp [PyVal.isDict] at h

/-- Claim C8, witness: the theorem at dict content and at string content. -/
theorem requests_response_content_witness :
    (requests_response_default (PyVal.dict [("a", PyVal.str "b")])).content =
      PyVal.str (json_dumps (PyVal.dict [("a", PyVal.str "b")])) ∧
    (requests_response_default (PyVal.str "x")).content = PyVal.str "x" ∧
    (requests_response_default (PyVal.str "x")).status_code = 200 :=
  ⟨(requests_response_content (PyVal.dict [("a", PyVal.str "b")])).1
     [("a", PyVal.str "b")] rfl,
   (requests_response_content (PyVal.str "x")).2.1 rfl,
   (requests_response_content (PyVal.str "x")).2.2⟩

/-- Claim C4: when the template body cannot be parsed, ValidateTemplate
answers with the flask_error_response envelope at status 400 — so the body
field Type is User and the message is Template Validation Error — and the
stack store is unchanged, so no Stack is created. -/
theorem validate_template_invalid_template (parse : String → Option Template)
    (body : String) (st : StacksState) (h : parse body = none) :
    (validate_template parse body st).1 =
      flask_error_response "Template Validation Error" 400 "ValidationError" ∧
    (validate_template parse body st).1.status_code = 400 ∧
    (validate_template parse body st).1.data =
      json_dumps (PyVal.dict
        [("Type", PyVal.str "User"),
         ("message", PyVal.str "Template Validation Error"),
         ("__type", PyVal.str "ValidationError")]) ∧
    (validate_template parse body st).2 = st := by
  have hr : validate_template_response parse body =
      flask_error_response "Template Validation Error" 400 "ValidationError" := by
    unfold validate_template_response
    rw [h]
  refine ⟨?_, ?_, ?_, rfl⟩ <;>
    simp only [validate_template, hr] <;> rfl

/-- Claim C4, witness: the theorem at a parser rejecting every body. -/
theorem validate_template_invalid_template_witness :
    (validate_template (fun _ => none) "not a template" []).1.status_code = 400 ∧
    (validate_template (fun _ => none) "not a template" []).2 = ([] : StacksState) :=
  ⟨(validate_template_invalid_template (fun _ => none) "not a template" [] rfl).2.1,
   (validate_template_invalid_template (fun _ => none) "not a template" [] rfl).2.2.2⟩

/-- Claim C7: validation is idempotent — validating the same template body
twice yields the same response both times, and neither call changes the
stack store. -/
theorem validate_template_idempotent (parse : String → Option Template)
    (body : String) (st : StacksState) :
    (validate_template parse body ((validate_template parse body st).2)).1 =
      (validate_template parse body st).1 ∧
    (validate_template parse body st).2 = st :=
  ⟨rfl, rfl⟩

/-- Claim C5: applying the scenario template — queue Q, bucket B tagged with
a reference to Q, topic T, and the subscription — ends with stack status
CREATE_COMPLETE, the bucket's tag value resolved to Q's queue URL, Q's
physical identifier being that URL, and all four listed resources carrying a
non-empty physical identifier. -/
theorem scenario_apply_create_complete :
    stack_status scenario_stack = StackStatus.create_complete ∧
    (assoc scenario_stack.resources "B").bind (fun r => assoc r.resolved_props "Tags") =
      some (TVal.arr [TVal.dict
        [("Key", TVal.s "foobar"),
         ("Value", TVal.s "http://localhost:4576/queue/cf-test-queue-1")]]) ∧
    (assoc scenario_stack.resources "Q").bind (fun r => r.phys_id) =
      some "http://localhost:4576/queue/cf-test-queue-1" ∧
    (describe_stack_resources scenario_stack).map (fun e => e.1) =
      ["Q", "B", "T", "Sub"] ∧
    (describe_stack_resources scenario_stack).all (fun e => !(e.2.1 == "")) = true :=
  ⟨rfl, rfl, rfl, rfl, rfl⟩

/-- A FAILED status is never a COMPLETE status. -/
lemma is_failed_not_complete (s : ResStatus) (h : is_failed s = true) :
    is_complete s = false := by
  cases s <;> simp_all [is_failed, is_complete]

/-- A status that is neither COMPLETE nor FAILED is non-terminal. -/
lemma not_terminal_of_not_complete_not_failed (s : ResStatus)
    (hc : is_complete s = false) (hf : is_failed s = false) :
    is_terminal s = false := by
  simp [is_terminal, hc, hf]

/-- Claim C6, counterexample: with one resource CREATE_FAILED and one still
PENDING, some resource is in a non-terminal state, yet the derived stack
status is CREATE_FAILED, not IN_PROGRESS — the FAILED clause and the
IN_PROGRESS clause of the claim cannot both hold as stated. -/
theorem derive_stack_status_counterexample :
    [ResStatus.create_failed, ResStatus.pending].any (fun s => !(is_terminal s)) = true ∧
    derive_stack_status [ResStatus.create_failed, ResStatus.pending] ≠
      StackStatus.in_progress ∧
    derive_stack_status [ResStatus.create_failed, ResStatus.pending] =
      StackStatus.create_failed :=
  ⟨rfl, by decide, rfl⟩

/-- Claim C6, amended: the stack status is a pure function of the resource
statuses — CREATE_COMPLETE exactly when every resource reached a COMPLETE
state, CREATE_FAILED exactly when some resource sits in a FAILED state not
compensated by a successful rollback (a compensated resource carries
ROLLBACK_COMPLETE), and IN_PROGRESS exactly when some resource is
non-terminal and none has failed. -/
theorem derive_stack_status_amended (rs : List ResStatus) :
    (derive_stack_status rs = StackStatus.create_complete ↔
      rs.all is_complete = true) ∧
    (derive_stack_status rs = StackStatus.create_failed ↔
      rs.any is_failed = true) ∧
    (derive_stack_status rs = StackStatus.in_progress ↔
      (rs.any (fun s => !(is_terminal s)) = true ∧ rs.any is_failed = false)) := by
  unfold derive_stack_status
  by_cases h1 : rs.all is_complete = true
  · have h2 : rs.any is_failed = false := by
      rw [List.any_eq_false]
      intro s hs hf
      have hc := List.all_eq_true.mp h1 s hs
      rw [is_failed_not_complete s hf] at hc
      exact absurd hc Bool.false_ne_true
    have h3 : rs.any (fun s => !(is_terminal s)) = false := by
      rw [List.any_eq_false]
      intro s hs
      have hc := List.all_eq_true.mp h1 s hs
      simp [is_terminal, hc]
    rw [if_pos h1]
    refine ⟨⟨fun _ => h1, fun _ => rfl⟩,
            ⟨fun hc => absurd hc (by decide),
             fun ha => absurd (ha.symm.trans h2) (by decide)⟩,
            ⟨fun hc => absurd hc (by decide),
             fun hp => absurd (hp.1.symm.trans h3) (by decide)⟩⟩
  · by_cases h2 : rs.any is_failed = true
    · rw [if_neg h1, if_pos h2]
      refine ⟨⟨fun hc => absurd hc (by decide), fun ha => absurd ha h1⟩,
              ⟨fun _ => h2, fun _ => rfl⟩,
              ⟨fun hc => absurd hc (by decide),
               fun hp => absurd (h2.symm.trans hp.2) (by decide)⟩⟩
    · have h2f : rs.any is_failed = false := Bool.eq_false_iff.mpr h2
      have h3 : rs.any (fun s => !(is_terminal s)) = true := by
        rw [List.all_eq_true] at h1
        push_neg at h1
        obtain ⟨s, hs, hns⟩ := h1
        have hcf : is_complete s = false := Bool.eq_false_iff.mpr hns
        have hff : is_failed s = false :=
          Bool.eq_false_iff.mpr (List.any_eq_false.mp h2f s hs)
        rw [List.any_eq_true]
        refine ⟨s, hs, ?_⟩
        rw [not_terminal_of_not_complete_not_failed s hcf hff]
        rfl
      rw [if_neg h1, if_neg h2]
      exact ⟨⟨fun hc => absurd hc (by decide), fun ha => absurd ha h1⟩,
             ⟨fun hc => absurd hc (by decide), fun ha => absurd ha h2⟩,
             ⟨fun _ => ⟨h3, h2f⟩, fun _ => rfl⟩⟩

/-- When header names are pairwise distinct case-insensitively, the
first-match header lookup of any held pair's name answers that pair's own
value. -/
lemma headers_get_mem_self (l : List (String × String))
    (hnd : l.Pairwise (fun a b => ciKey a.1 ≠ ciKey b.1)) :
    ∀ p ∈ l, headers_get l p.1 = some p.2 := by
  induction l with
  | nil => intro p hp; cases hp
  | cons q t ih =>
    rw [List.pairwise_cons] at hnd
    obtain ⟨hhead, htail⟩ := hnd
    intro p hp
    rcases List.mem_cons.mp hp with heq | hmemt
    · subst heq
      have hself : (ciKey p.1 == ciKey p.1) = true := beq_self_eq_true _
      simp [headers_get, List.find?, hself]
    · have hne : (ciKey q.1 == ciKey p.1) = false := by
        have := hhead p hmemt
        simpa using this
      have hstep : headers_get (q :: t) p.1 = headers_get t p.1 := by
        simp [headers_get, List.find?, hne]
      rw [hstep]
      exact ih htail p hmemt

/-- Folding the dict mapping-protocol step over pairs with pairwise-distinct
keys, when the first-match lookup answers each pair's own value, appends each
pair untouched. -/
lemma foldl_dictInsert_get_append (l : List (String × String)) :
    ∀ (rest acc : List (String × String)),
      (∀ p ∈ rest, headers_get l p.1 = some p.2) →
      (acc ++ rest).Pairwise (fun a b => a.1 ≠ b.1) →
      rest.foldl (fun a p => dictInsert a p.1 ((headers_get l p.1).getD p.2)) acc =
        acc ++ rest
  | [], acc, _, _ => by simp
  | p :: t, acc, hget, h => by
    obtain ⟨k, v⟩ := p
    have hkv : headers_get l k = some v := hget (k, v) (List.mem_cons_self _ _)
    have hnot : acc.any (fun q => q.1 == k) = false := by
      rw [List.any_eq_false]
      intro q hq
      have hne := (List.pairwise_append.mp h).2.2 q hq (k, v) (List.mem_cons_self _ _)
      simpa using hne
    have hstep : dictInsert acc k ((headers_get l k).getD v) = acc ++ [(k, v)] := by
      unfold dictInsert
      rw [hkv, hnot]
      simp
    rw [List.foldl_cons]
    dsimp only
    rw [hstep,
        foldl_dictInsert_get_append l t (acc ++ [(k, v)])
          (fun q hq => hget q (List.mem_cons_of_mem _ hq))
          (by rwa [List.append_assoc, List.singleton_append]),
        List.append_assoc, List.singleton_append]

/-- Python dict leaves a werkzeug header list whose names are pairwise
distinct case-insensitively unchanged. -/
lemma pyDictOfHeaders_self (l : List (String × String))
    (hnd : l.Pairwise (fun a b => ciKey a.1 ≠ ciKey b.1)) :
    pyDictOfHeaders l = l := by
  have hcs : l.Pairwise (fun a b => a.1 ≠ b.1) :=
    hnd.imp (fun hab hab2 => hab (by rw [hab2]))
  simpa [pyDictOfHeaders] using
    foldl_dictInsert_get_append l l [] (headers_get_mem_self l hnd) (by simpa using hcs)

/-- Setting a header to a name/value pair the list already holds, when header
names are pairwise distinct case-insensitively, leaves the list unchanged. -/
lemma headers_set_mem (l : List (String × String)) (k v : String)
    (hnd : l.Pairwise (fun a b => ciKey a.1 ≠ ciKey b.1))
    (hmem : (k, v) ∈ l) : headers_set l k v = l := by
  induction l with
  | nil => cases hmem
  | cons p t ih =>
    rw [List.pairwise_cons] at hnd
    obtain ⟨hhead, htail⟩ := hnd
    rcases List.mem_cons.mp hmem with heq | hmemt
    · subst heq
      simp only [headers_set, beq_self_eq_true, if_true]
      congr 1
      rw [List.filter_eq_self]
      intro q hq
      have := hhead q hq
      simpa using Ne.symm this
    · have hne : (ciKey p.1 == ciKey k) = false := by
        have := hhead (k, v) hmemt
        simpa using this
      simp only [headers_set, hne, Bool.false_eq_true, if_false]
      rw [ih htail hmemt]

/-- Claim C9, counterexample: a flask response with two Set-Cookie headers is
not preserved by the round trip — Python dict applied to the headers via the
mapping protocol collapses a repeated header name to a single entry holding
the first value, so the pair Set-Cookie b=2 is lost while Set-Cookie keeps
its first value a=1. -/
theorem response_roundtrip_counterexample :
    requests_to_flask_response (flask_to_requests_response
      { data := "", status_code := 200,
        headers := [("Content-Type", "text/html; charset=utf-8"),
                    ("Content-Length", "0"),
                    ("Set-Cookie", "a=1"), ("Set-Cookie", "b=2")] }) ≠
    some { data := "", status_code := 200,
           headers := [("Content-Type", "text/html; charset=utf-8"),
                       ("Content-Length", "0"),
                       ("Set-Cookie", "a=1"), ("Set-Cookie", "b=2")] } ∧
    (requests_to_flask_response (flask_to_requests_response
      { data := "", status_code := 200,
        headers := [("Content-Type", "text/html; charset=utf-8"),
                    ("Content-Length", "0"),
                    ("Set-Cookie", "a=1"), ("Set-Cookie", "b=2")] })).map
      (fun r => r.headers.filter (fun p => p.1 == "Set-Cookie")) =
    some [("Set-Cookie", "a=1")] := by
  exact ⟨by decide, by decide⟩

/-- Claim C9, amended: the round trip preserves every flask response with a
string-or-bytes body whose header names are pairwise distinct up to case,
whose headers hold a content type, and whose Content-Length header matches
the body length — the headers a flask response constructed from such a header
set carries. Body, status code and header pairs all come back unchanged. -/
theorem response_roundtrip_amended (r : FlaskResponse)
    (hnd : r.headers.Pairwise (fun a b => ciKey a.1 ≠ ciKey b.1))
    (hct : headers_contains r.headers "content-type" = true)
    (hcl : ("Content-Length", toString r.data.length) ∈ r.headers) :
    requests_to_flask_response (flask_to_requests_response r) = some r := by
  obtain ⟨body, status, hs⟩ := r
  show some (mkResponse body status (pyDictOfHeaders hs)) = some ⟨body, status, hs⟩
  rw [pyDictOfHeaders_self hs hnd]
  unfold mkResponse mkResponseHeaders
  rw [if_pos hct, headers_set_mem hs "Content-Length" (toString body.length) hnd hcl]

/-- Claim C9, witness: the round trip at a concrete well-formed response. -/
theorem response_roundtrip_amended_witness :
    requests_to_flask_response (flask_to_requests_response
      { data := "hi", status_code := 200,
        headers := [("Content-Type", "text/html; charset=utf-8"),
                    ("Content-Length", "2")] }) =
    some { data := "hi", status_code := 200,
           headers := [("Content-Type", "text/html; charset=utf-8"),
                       ("Content-Length", "2")] } :=
  response_roundtrip_amended
    { data := "hi", status_code := 200,
      headers := [("Content-Type", "text/html; charset=utf-8"),
                  ("Content-Length", "2")] }
    (by decide) (by decide) (by decide)

end LocalStackProof
